import Mathlib

/-!
Shallow embedding of the options payoff visualizer (src/app.py).

The program is a Streamlit app whose computational core is the function
`calculate_payoff(legs, spot_range_max=200)` together with the per-row
cash-flow function `get_cf` and the pandas `cumsum` running total used by
the trade-log table.  Floats are modelled as rationals (`ℚ`), numpy arrays
as `List ℚ`, and `np.linspace` as the explicit sampling formula
`start + i * (stop - start) / (num - 1)`.

Leg records are Python dicts with keys Qty, Action, Type, Strike, Exp Date,
Price, Fees, Leg Notes; the `Action` value is one of the four strings
offered by the sidebar selectbox, and the code branches on the substrings
"Buy" / "Sell" of that string.  Since exactly those four strings can occur,
the action is modelled as a four-constructor inductive type and the
substring tests as case analyses.
-/

set_option maxRecDepth 10000

namespace OptionProfit

/-- The four values of the Action selectbox:
"Sell to Open", "Buy to Open", "Buy to Close", "Sell to Close". -/
inductive Action where
  | sellToOpen
  | buyToOpen
  | buyToClose
  | sellToClose
  deriving DecidableEq, Repr

/-- The two values of the Type selectbox: "Put", "Call". -/
inductive OptType where
  | call
  | put
  deriving DecidableEq, Repr

/-- One leg record, as built by the sidebar form (src/app.py lines 87-92).
`expDate` and `notes` are display-only strings; they never enter the math. -/
structure Leg where
  qty : ℤ
  action : Action
  optType : OptType
  strike : ℚ
  expDate : String
  price : ℚ
  fees : ℚ
  notes : String
  deriving DecidableEq, Repr

/-- `'Buy' in leg['Action']` (src/app.py line 30): of the four selectbox
strings, exactly "Buy to Open" and "Buy to Close" contain "Buy". -/
def isBuy : Action → Bool
  | .buyToOpen => true
  | .buyToClose => true
  | .sellToOpen => false
  | .sellToClose => false

/-- `'Sell' in leg['Action']` (src/app.py lines 33 and 140): of the four
selectbox strings, exactly "Sell to Open" and "Sell to Close" contain
"Sell". -/
def isSell : Action → Bool
  | .sellToOpen => true
  | .sellToClose => true
  | .buyToOpen => false
  | .buyToClose => false

/-- `pos_direction = 1 if is_buy else -1` (src/app.py line 31). -/
def pos_direction (a : Action) : ℚ := if isBuy a then 1 else -1

/-- `direction_mult = 1 if 'Sell' in leg['Action'] else -1`
(src/app.py line 33). -/
def direction_mult (a : Action) : ℚ := if isSell a then 1 else -1

/-- `net_cash_flow = (leg['Price'] * 100 * leg['Qty'] * direction_mult)
- leg['Fees']` (src/app.py line 34). -/
def net_cash_flow (leg : Leg) : ℚ :=
  leg.price * 100 * (leg.qty : ℚ) * direction_mult leg.action - leg.fees

/-- Intrinsic value at one spot (src/app.py lines 38-41):
`max(spot - strike, 0)` for a Call, `max(strike - spot, 0)` for a Put. -/
def intrinsic (leg : Leg) (spot : ℚ) : ℚ :=
  match leg.optType with
  | .call => max (spot - leg.strike) 0
  | .put => max (leg.strike - spot) 0

/-- `leg_pnl = (intrinsic * pos_direction * leg['Qty'] * 100) +
net_cash_flow` (src/app.py line 43), at one spot. -/
def leg_pnl (leg : Leg) (spot : ℚ) : ℚ :=
  intrinsic leg spot * pos_direction leg.action * (leg.qty : ℚ) * 100
    + net_cash_flow leg

/-- `np.linspace(lo, hi, n)`: the `n` samples
`lo + i * (hi - lo) / (n - 1)` for `i = 0, ..., n-1`. -/
def linspace (lo hi : ℚ) (n : ℕ) : List ℚ :=
  (List.range n).map fun i : ℕ =>
    lo + (hi - lo) * (i : ℚ) / ((n - 1 : ℕ) : ℚ)

/-- `max_strike = max(strikes) if strikes else 100` (src/app.py line 25);
`List.max?` is exactly Python `max` on a list, with `getD 100` for the
empty-list default. -/
def max_strike (legs : List Leg) : ℚ :=
  ((legs.map Leg.strike).max?).getD 100

/-- Pointwise addition of two equal-length curves: numpy `total_pnl +=
leg_pnl` (src/app.py line 44). -/
def addCurve (xs ys : List ℚ) : List ℚ := List.zipWith (· + ·) xs ys

/-- The default of the `spot_range_max` parameter (src/app.py line 16). -/
def default_spot_range_max : ℚ := 200

/-- `calculate_payoff(legs, spot_range_max=200)` (src/app.py lines 16-46).
Returns `(total_pnl, spot_range, total_net_cash)`.  The Python default
argument is `default_spot_range_max = 200`; callers relying on the default
pass it explicitly here.

Faithful to the source: the initial grid uses `spot_range_max`; for empty
`legs` the zero curve over that grid is returned; otherwise the grid is
rebuilt over `[0, max_strike * 1.5]` (discarding `spot_range_max`), and the
loop accumulates `total_net_cash` and pointwise-adds each leg curve into
`total_pnl`. -/
def calculate_payoff (legs : List Leg) (spot_range_max : ℚ) :
    List ℚ × List ℚ × ℚ :=
  let spot_range := linspace 0 spot_range_max 1000
  let total_pnl := spot_range.map fun _ => 0
  if legs.isEmpty then
    (total_pnl, spot_range, 0)
  else
    let spot_range := linspace 0 (max_strike legs * 1.5) 1000
    let total_pnl := spot_range.map fun _ => 0
    let total_net_cash := (legs.map net_cash_flow).sum
    let total_pnl := legs.foldl
      (fun acc leg => addCurve acc (spot_range.map (leg_pnl leg))) total_pnl
    (total_pnl, spot_range, total_net_cash)

/-- `get_cf(row)` (src/app.py lines 139-141): identical formula to
`net_cash_flow` above. -/
def get_cf (leg : Leg) : ℚ :=
  leg.price * 100 * (leg.qty : ℚ) * (if isSell leg.action then 1 else -1)
    - leg.fees

/-- pandas `cumsum` with a running accumulator. -/
def cumsumFrom (acc : ℚ) : List ℚ → List ℚ
  | [] => []
  | x :: xs => (acc + x) :: cumsumFrom (acc + x) xs

/-- `df['Running Total'] = df['Net Cash'].cumsum()` (src/app.py line 144):
the running totals of the per-leg cash flows, in insertion order. -/
def runningTotals (legs : List Leg) : List ℚ :=
  cumsumFrom 0 (legs.map get_cf)

/-- Leg intake as implemented by the sidebar form (src/app.py lines 69-92):
the Qty widget is declared with `min_value=1`, so a candidate with
`qty < 1` cannot be submitted (modelled as rejection, returning `none`);
no other field is constrained — in particular Strike has no minimum — and
the submit handler appends the candidate to the session portfolio
unconditionally. -/
def addLeg (portfolio : List Leg) (candidate : Leg) : Option (List Leg) :=
  if candidate.qty < 1 then none else some (portfolio ++ [candidate])

/-- Spec-side definition (spec §3): `sign(action)` = +1 if action is a
"sell" action (credit), −1 if a "buy" action (debit). -/
def specSign : Action → ℚ
  | .sellToOpen => 1
  | .sellToClose => 1
  | .buyToOpen => -1
  | .buyToClose => -1

/-- Spec-side definition (spec §3): `positionDirection(leg)` = +1 if action
is a "buy" action, −1 if a "sell" action. -/
def specPosDirection : Action → ℚ
  | .buyToOpen => 1
  | .buyToClose => 1
  | .sellToOpen => -1
  | .sellToClose => -1

/-- The single long call of spec §8: Buy to Open, qty 1, strike 100,
price 2.00, fees 0.65. -/
def longCall : Leg :=
  ⟨1, .buyToOpen, .call, 100, "2025-01-17", 2, 0.65, ""⟩

/-- A candidate leg with strike 0 (the Strike widget has no minimum, so the
form accepts it). -/
def zeroStrikeLeg : Leg :=
  ⟨1, .sellToOpen, .put, 0, "2025-01-17", 1.5, 0.65, ""⟩

/-- A second leg used for concrete permutation and ledger inputs: Sell to
Open put, qty 1, strike 50, price 1.00, fees 0.65 (spec §8's short put). -/
def shortPut : Leg :=
  ⟨1, .sellToOpen, .put, 50, "2025-01-17", 1, 0.65, ""⟩

/-! ### Helper lemmas about the embedded operations -/

theorem linspace_length (lo hi : ℚ) (n : ℕ) : (linspace lo hi n).length = n := by
  simp [linspace]

theorem linspace_head_1000 (lo hi : ℚ) :
    (linspace lo hi 1000).head? = some lo := by
  unfold linspace
  rw [List.head?_map, show (1000 : ℕ) = 999 + 1 from rfl,
    List.range_succ_eq_map]
  simp

theorem linspace_getLast_1000 (lo hi : ℚ) :
    (linspace lo hi 1000).getLast? = some hi := by
  unfold linspace
  rw [List.getLast?_map, show (1000 : ℕ) = 999 + 1 from rfl,
    List.range_succ, List.getLast?_concat]
  have h999 : ((1000 - 1 : ℕ) : ℚ) = 999 := by norm_num
  simp only [Option.map_some', h999]
  rw [mul_div_assoc, div_self (by norm_num : (999 : ℚ) ≠ 0)]
  ring_nf

theorem linspace_pairwise (hi : ℚ) (h : 0 < hi) :
    (linspace 0 hi 1000).Pairwise (· < ·) := by
  unfold linspace
  refine List.Pairwise.map _ (fun a b hab => ?_) (List.pairwise_lt_range 1000)
  have hab' : (a : ℚ) < (b : ℚ) := by exact_mod_cast hab
  have h999 : (0 : ℚ) < ((1000 - 1 : ℕ) : ℚ) := by norm_num
  have := mul_lt_mul_of_pos_left hab' (by simpa using h : (0 : ℚ) < hi - 0)
  exact add_lt_add_left (div_lt_div_of_pos_right this h999) 0

theorem zipWith_add_map (g f : ℚ → ℚ) (l : List ℚ) :
    addCurve (l.map g) (l.map f) = l.map fun s => g s + f s := by
  induction l with
  | nil => rfl
  | cons x xs ih => simp [addCurve, ih]

theorem foldl_addCurve (grid : List ℚ) (L : List Leg) (g : ℚ → ℚ) :
    L.foldl (fun acc leg => addCurve acc (grid.map (leg_pnl leg)))
        (grid.map g)
      = grid.map fun s => g s + (L.map fun leg => leg_pnl leg s).sum := by
  induction L generalizing g with
  | nil => simp
  | cons leg L ih =>
    rw [List.foldl_cons, zipWith_add_map, ih]
    refine congrArg (fun f => List.map f grid) (funext fun s => ?_)
    simp [add_assoc]

/-- Normal form of `calculate_payoff` on a non-empty portfolio: the grid is
rebuilt over `[0, max_strike * 1.5]` regardless of `spot_range_max`, the
curve is the pointwise sum of the per-leg P&L, and the net cash is the sum
of the per-leg cash flows. -/
theorem calculate_payoff_eq (legs : List Leg) (h : legs ≠ []) (m : ℚ) :
    calculate_payoff legs m =
      ((linspace 0 (max_strike legs * 1.5) 1000).map
          (fun s => (legs.map fun leg => leg_pnl leg s).sum),
        linspace 0 (max_strike legs * 1.5) 1000,
        (legs.map net_cash_flow).sum) := by
  have hne : legs.isEmpty = false := by simpa using h
  unfold calculate_payoff
  simp only [hne, Bool.false_eq_true, if_false, foldl_addCurve]
  simp

theorem calculate_payoff_empty (m : ℚ) :
    calculate_payoff [] m =
      ((linspace 0 m 1000).map fun _ => 0, linspace 0 m 1000, 0) := rfl

theorem get_cf_eq (leg : Leg) : get_cf leg = net_cash_flow leg := rfl

theorem cumsumFrom_length (acc : ℚ) (l : List ℚ) :
    (cumsumFrom acc l).length = l.length := by
  induction l generalizing acc with
  | nil => rfl
  | cons x xs ih => simpa [cumsumFrom] using ih (acc + x)

theorem cumsumFrom_getLast (l : List ℚ) :
    ∀ acc : ℚ, l ≠ [] → (cumsumFrom acc l).getLast? = some (acc + l.sum) := by
  induction l with
  | nil => intro acc h; exact absurd rfl h
  | cons x xs ih =>
    intro acc _
    by_cases hxs : xs = []
    · subst hxs; simp [cumsumFrom]
    · have htail : cumsumFrom (acc + x) xs ≠ [] := by
        intro hnil
        have := cumsumFrom_length (acc + x) xs
        rw [hnil] at this
        exact hxs (List.eq_nil_of_length_eq_zero this.symm)
      rw [cumsumFrom]
      rw [show ((acc + x) :: cumsumFrom (acc + x) xs).getLast?
            = (cumsumFrom (acc + x) xs).getLast? by
          cases h' : cumsumFrom (acc + x) xs with
          | nil => exact absurd h' htail
          | cons y ys => simp]
      rw [ih (acc + x) hxs]
      simp [add_assoc]

theorem rat_max?_eq_some_iff {xs : List ℚ} {a : ℚ} :
    xs.max? = some a ↔ a ∈ xs ∧ ∀ b ∈ xs, b ≤ a := by
  haveI : Std.Antisymm ((· : ℚ) ≤ ·) := ⟨fun h h' => le_antisymm h h'⟩
  exact List.max?_eq_some_iff le_refl max_choice (fun _ _ _ => max_le_iff)

theorem max?_perm {l₁ l₂ : List ℚ} (h : l₁.Perm l₂) : l₁.max? = l₂.max? := by
  cases h₁ : l₁.max? with
  | none =>
    rw [List.max?_eq_none_iff] at h₁
    subst h₁
    rw [List.max?_eq_none_iff.2 h.nil_eq.symm]
  | some a =>
    rw [rat_max?_eq_some_iff] at h₁
    exact (rat_max?_eq_some_iff.2
      ⟨h.mem_iff.1 h₁.1, fun b hb => h₁.2 b (h.mem_iff.2 hb)⟩).symm

theorem max_strike_perm {l₁ l₂ : List Leg} (h : l₁.Perm l₂) :
    max_strike l₁ = max_strike l₂ := by
  unfold max_strike
  rw [max?_perm (h.map Leg.strike)]

theorem max_strike_pos (legs : List Leg) (h : legs ≠ [])
    (hs : ∀ l ∈ legs, 0 < l.strike) : 0 < max_strike legs := by
  unfold max_strike
  obtain ⟨a, ha⟩ : ∃ a, (legs.map Leg.strike).max? = some a := by
    cases h' : (legs.map Leg.strike).max? with
    | none =>
      rw [List.max?_eq_none_iff, List.map_eq_nil_iff] at h'
      exact absurd h' h
    | some a => exact ⟨a, rfl⟩
  rw [ha, Option.getD_some]
  obtain ⟨l, hl, rfl⟩ := List.mem_map.1 (rat_max?_eq_some_iff.1 ha).1
  exact hs l hl

theorem calculate_payoff_lengths (legs : List Leg) (m : ℚ) :
    (calculate_payoff legs m).1.length = 1000 ∧
    (calculate_payoff legs m).2.1.length = 1000 := by
  by_cases h : legs = []
  · subst h
    rw [calculate_payoff_empty]
    constructor <;> simp [linspace_length]
  · rw [calculate_payoff_eq legs h m]
    constructor <;> simp [linspace_length]

/-! ### Claim theorems -/

/-- C1: for every non-empty portfolio, `calculate_payoff` builds the grid
over `[0, max_strike * 1.5]` when the caller relies on the default
`spot_range_max` (first conjunct).  However, contrary to the claim's second
half, a caller-supplied `spot_range_max` is discarded in exactly the same
way: the entire result is independent of the supplied value (second
conjunct), so the dashboard's widening re-invocation (src/app.py line 104)
has no effect on the returned grid. -/
theorem C1_spot_range_max_discarded (legs : List Leg) (h : legs ≠ [])
    (m m' : ℚ) :
    (calculate_payoff legs default_spot_range_max).2.1.getLast?
        = some (max_strike legs * 1.5) ∧
    calculate_payoff legs m = calculate_payoff legs m' := by
  rw [calculate_payoff_eq legs h default_spot_range_max,
    calculate_payoff_eq legs h m, calculate_payoff_eq legs h m']
  exact ⟨linspace_getLast_1000 0 (max_strike legs * 1.5), rfl⟩

/-- Witness for C1 at the failing input: for the single long call
(strike 100), supplying `spot_range_max = 500` yields exactly the output of
the default call, and the default grid ends at `max_strike * 1.5`. -/
theorem C1_spot_range_max_discarded_witness :
    (calculate_payoff [longCall] default_spot_range_max).2.1.getLast?
        = some (max_strike [longCall] * 1.5) ∧
    calculate_payoff [longCall] 500 = calculate_payoff [longCall] 200 :=
  C1_spot_range_max_discarded [longCall] (by simp) 500 200

/-- C6: for every non-empty portfolio whose strikes are all positive, and
for EVERY supplied `spot_range_max`, the grid has exactly 1000 strictly
increasing points starting at 0 and ending at `max_strike * 1.5`, and the
P&L curve has the same constant length 1000.  The end of the grid is
`max_strike * 1.5` even when a bound is supplied, so the claim's
"or at the overridden bound" branch never occurs. -/
theorem C6_grid_shape (legs : List Leg) (m : ℚ) (h : legs ≠ [])
    (hs : ∀ l ∈ legs, 0 < l.strike) :
    (calculate_payoff legs m).2.1.length = 1000 ∧
    (calculate_payoff legs m).1.length = 1000 ∧
    (calculate_payoff legs m).2.1.Pairwise (· < ·) ∧
    (calculate_payoff legs m).2.1.head? = some 0 ∧
    (calculate_payoff legs m).2.1.getLast?
        = some (max_strike legs * 1.5) := by
  rw [calculate_payoff_eq legs h m]
  have hpos : 0 < max_strike legs * 1.5 :=
    mul_pos (max_strike_pos legs h hs) (by norm_num)
  refine ⟨linspace_length _ _ _, ?_, linspace_pairwise _ hpos,
    linspace_head_1000 _ _, linspace_getLast_1000 _ _⟩
  simp [linspace_length]

/-- Witness for C6 at the failing input: the single long call (strike 100)
with supplied bound 500. -/
theorem C6_grid_shape_witness :
    (calculate_payoff [longCall] 500).2.1.length = 1000 ∧
    (calculate_payoff [longCall] 500).1.length = 1000 ∧
    (calculate_payoff [longCall] 500).2.1.Pairwise (· < ·) ∧
    (calculate_payoff [longCall] 500).2.1.head? = some 0 ∧
    (calculate_payoff [longCall] 500).2.1.getLast?
        = some (max_strike [longCall] * 1.5) :=
  C6_grid_shape [longCall] 500 (by simp) (by decide)

/-- C7: the empty portfolio is a defined degenerate case: over the default
domain the curve is identically zero (all 1000 points), net cash is 0, and
the grid spans `[0, 200]`. -/
theorem C7_empty_portfolio :
    (calculate_payoff [] default_spot_range_max).1
        = List.replicate 1000 0 ∧
    (calculate_payoff [] default_spot_range_max).2.2 = 0 ∧
    (calculate_payoff [] default_spot_range_max).2.1.length = 1000 ∧
    (calculate_payoff [] default_spot_range_max).2.1.head? = some 0 ∧
    (calculate_payoff [] default_spot_range_max).2.1.getLast?
        = some 200 := by
  rw [show default_spot_range_max = 200 from rfl, calculate_payoff_empty]
  exact ⟨by rw [List.map_const', linspace_length], rfl,
    linspace_length _ _ _, linspace_head_1000 _ _, linspace_getLast_1000 _ _⟩

/-- C9: `calculate_payoff` is deterministic — equal portfolios and equal
`spot_range_max` arguments give equal `(pnlCurve, spotGrid, netCash)`
triples — and its output arrays always have the constant length 1000.  (In
the embedding the function is pure by construction, matching the source,
which reads but never writes `legs`.) -/
theorem C9_deterministic (l₁ l₂ : List Leg) (m₁ m₂ : ℚ)
    (hl : l₁ = l₂) (hm : m₁ = m₂) :
    calculate_payoff l₁ m₁ = calculate_payoff l₂ m₂ ∧
    (calculate_payoff l₁ m₁).1.length = 1000 ∧
    (calculate_payoff l₁ m₁).2.1.length = 1000 := by
  subst hl hm
  exact ⟨rfl, calculate_payoff_lengths l₁ m₁⟩

/-- Witness for C9: two invocations on equal concrete inputs. -/
theorem C9_deterministic_witness :
    calculate_payoff [longCall] 200 = calculate_payoff [longCall] 200 ∧
    (calculate_payoff [longCall] 200).1.length = 1000 ∧
    (calculate_payoff [longCall] 200).2.1.length = 1000 :=
  C9_deterministic [longCall] [longCall] 200 200 rfl rfl

/-- C10: on the empty portfolio a supplied `spot_range_max = m > 0` is used
verbatim: the returned grid is exactly `linspace 0 m 1000` (1000 strictly
increasing points from 0 to `m`, no scaling), the curve is identically
zero, and net cash is 0; with the default argument the grid ends at 200. -/
theorem C10_empty_override (m : ℚ) (hm : 0 < m) :
    (calculate_payoff [] m).1 = List.replicate 1000 0 ∧
    (calculate_payoff [] m).2.2 = 0 ∧
    (calculate_payoff [] m).2.1 = linspace 0 m 1000 ∧
    (calculate_payoff [] m).2.1.length = 1000 ∧
    (calculate_payoff [] m).2.1.head? = some 0 ∧
    (calculate_payoff [] m).2.1.getLast? = some m ∧
    (calculate_payoff [] m).2.1.Pairwise (· < ·) ∧
    (calculate_payoff [] default_spot_range_max).2.1.getLast?
        = some 200 := by
  rw [calculate_payoff_empty, show default_spot_range_max = 200 from rfl,
    calculate_payoff_empty]
  exact ⟨by rw [List.map_const', linspace_length], rfl, rfl,
    linspace_length _ _ _, linspace_head_1000 _ _, linspace_getLast_1000 _ _,
    linspace_pairwise _ hm, linspace_getLast_1000 _ _⟩

/-- Witness for C10 at `m = 5`. -/
theorem C10_empty_override_witness :
    (calculate_payoff [] 5).1 = List.replicate 1000 0 ∧
    (calculate_payoff [] 5).2.2 = 0 ∧
    (calculate_payoff [] 5).2.1 = linspace 0 5 1000 ∧
    (calculate_payoff [] 5).2.1.length = 1000 ∧
    (calculate_payoff [] 5).2.1.head? = some 0 ∧
    (calculate_payoff [] 5).2.1.getLast? = some 5 ∧
    (calculate_payoff [] 5).2.1.Pairwise (· < ·) ∧
    (calculate_payoff [] default_spot_range_max).2.1.getLast?
        = some 200 :=
  C10_empty_override 5 (by norm_num)

/-- C3: for every non-empty portfolio, the last running total of the trade
log (cumulative sum of the per-leg cash flows in insertion order) equals
the net cash returned by `calculate_payoff` on the same portfolio,
whatever `spot_range_max` is supplied. -/
theorem C3_ledger_matches_netCash (legs : List Leg) (h : legs ≠ [])
    (m : ℚ) :
    (runningTotals legs).getLast? = some ((calculate_payoff legs m).2.2) := by
  rw [calculate_payoff_eq legs h m]
  unfold runningTotals
  rw [show get_cf = net_cash_flow from funext get_cf_eq,
    cumsumFrom_getLast (legs.map net_cash_flow) 0 (by simpa using h),
    zero_add]

/-- Witness for C3 on a two-leg portfolio. -/
theorem C3_ledger_matches_netCash_witness :
    (runningTotals [longCall, shortPut]).getLast?
        = some ((calculate_payoff [longCall, shortPut] 200).2.2) :=
  C3_ledger_matches_netCash [longCall, shortPut] (by simp) 200

/-- C4: `calculate_payoff` is invariant under any permutation of the leg
order: the P&L curve, the grid and the net cash are all identical. -/
theorem C4_perm_invariant (l₁ l₂ : List Leg) (h : l₁.Perm l₂) (m : ℚ) :
    calculate_payoff l₁ m = calculate_payoff l₂ m := by
  by_cases h₁ : l₁ = []
  · subst h₁
    rw [← h.nil_eq]
  · have h₂ : l₂ ≠ [] := fun h₂ => h₁ ((h₂ ▸ h).eq_nil)
    rw [calculate_payoff_eq l₁ h₁ m, calculate_payoff_eq l₂ h₂ m,
      max_strike_perm h, (h.map net_cash_flow).sum_eq,
      show (fun s => ((l₁.map fun leg => leg_pnl leg s).sum : ℚ))
          = fun s => (l₂.map fun leg => leg_pnl leg s).sum from
        funext fun s => (h.map fun leg => leg_pnl leg s).sum_eq]

/-- Witness for C4: swapping a two-leg portfolio. -/
theorem C4_perm_invariant_witness :
    calculate_payoff [longCall, shortPut] 200
      = calculate_payoff [shortPut, longCall] 200 :=
  C4_perm_invariant [longCall, shortPut] [shortPut, longCall]
    (List.Perm.swap shortPut longCall []) 200

/-- C5: the per-leg formulas: `net_cash_flow` is `price * 100 * qty *
sign(action) - fees` with the spec's sign (+1 for the Sell actions, −1 for
the Buy actions); per-leg P&L is `intrinsic * positionDirection * qty *
100 + net_cash_flow` with the spec's positionDirection (+1 Buy, −1 Sell);
and every point of the returned curve is the sum over the legs of the
per-leg P&L at the corresponding grid point (which exists for `i < 1000`). -/
theorem C5_per_leg_formulas (leg : Leg) (s : ℚ) (legs : List Leg)
    (m : ℚ) (h : legs ≠ []) (i : ℕ) (hi : i < 1000) :
    net_cash_flow leg
        = leg.price * 100 * (leg.qty : ℚ) * specSign leg.action
            - leg.fees ∧
    leg_pnl leg s
        = intrinsic leg s * specPosDirection leg.action * (leg.qty : ℚ)
            * 100 + net_cash_flow leg ∧
    (calculate_payoff legs m).1[i]?
        = ((calculate_payoff legs m).2.1[i]?).map
            (fun spot => (legs.map fun l => leg_pnl l spot).sum) ∧
    ((calculate_payoff legs m).2.1[i]?).isSome = true := by
  refine ⟨?_, ?_, ?_, ?_⟩
  · cases ha : leg.action <;>
      simp [net_cash_flow, direction_mult, isSell, specSign, ha]
  · cases ha : leg.action <;>
      simp [leg_pnl, pos_direction, isBuy, specPosDirection, ha]
  · rw [calculate_payoff_eq legs h m]
    exact List.getElem?_map _ _ i
  · rw [calculate_payoff_eq legs h m]
    have hi' : i < (linspace 0 (max_strike legs * 1.5) 1000).length := by
      rw [linspace_length]
      exact hi
    rw [List.getElem?_eq_getElem hi']
    rfl

/-- Witness for C5 on the single long call at spot 150 and grid index 999. -/
theorem C5_per_leg_formulas_witness :
    net_cash_flow longCall
        = longCall.price * 100 * (longCall.qty : ℚ) * specSign longCall.action
            - longCall.fees ∧
    leg_pnl longCall 150
        = intrinsic longCall 150 * specPosDirection longCall.action
            * (longCall.qty : ℚ) * 100 + net_cash_flow longCall ∧
    (calculate_payoff [longCall] 200).1[999]?
        = ((calculate_payoff [longCall] 200).2.1[999]?).map
            (fun spot => ([longCall].map fun l => leg_pnl l spot).sum) ∧
    ((calculate_payoff [longCall] 200).2.1[999]?).isSome = true :=
  C5_per_leg_formulas longCall 150 [longCall] 200 (by simp) 999 (by norm_num)

/-- C8: the spec §8 single-long-call example (Buy to Open Call, qty 1,
strike 100, price 2.00, fees 0.65): net cash is −200.65, the last grid
point is spot 150 (= maxStrike * 1.5), and the P&L there is 4799.35. -/
theorem C8_single_long_call :
    (calculate_payoff [longCall] default_spot_range_max).2.2 = -200.65 ∧
    (calculate_payoff [longCall] default_spot_range_max).2.1.getLast?
        = some 150 ∧
    (calculate_payoff [longCall] default_spot_range_max).1.getLast?
        = some 4799.35 := by
  rw [calculate_payoff_eq [longCall] (by simp) default_spot_range_max]
  have hms : max_strike [longCall] = 100 := by
    simp [max_strike, List.max?, longCall]
  refine ⟨?_, ?_, ?_⟩
  · norm_num [net_cash_flow, direction_mult, isSell, longCall]
  · rw [hms, linspace_getLast_1000]
    norm_num
  · rw [List.getLast?_map, hms, linspace_getLast_1000]
    simp only [Option.map_some', List.map_cons, List.map_nil,
      List.sum_cons, List.sum_nil]
    norm_num [leg_pnl, intrinsic, pos_direction, isBuy, net_cash_flow,
      direction_mult, isSell, longCall]

/-- C2 counterexample: a candidate leg with strike 0 (and qty 1) is NOT
rejected by the intake — it is appended to the portfolio — so the claim
that every candidate with `strike <= 0` is rejected fails on the code. -/
theorem C2_strike_not_validated :
    zeroStrikeLeg.strike ≤ 0
      ∧ addLeg [] zeroStrikeLeg = some [zeroStrikeLeg] := by
  constructor
  · norm_num [zeroStrikeLeg]
  · rfl

/-- C2 amended: the intake rejects exactly the candidates with `qty < 1`;
an accepted candidate is appended preserving insertion order, so
portfolios built by intake contain only legs with `qty ≥ 1` — but no
constraint on `strike` is enforced. -/
theorem C2_intake_qty_only (p : List Leg) (c : Leg) :
    (addLeg p c = none ↔ c.qty < 1) ∧
    ∀ r, addLeg p c = some r →
      r = p ++ [c] ∧ 1 ≤ c.qty
        ∧ ((∀ l ∈ p, 1 ≤ l.qty) → ∀ l ∈ r, 1 ≤ l.qty) := by
  by_cases hc : c.qty < 1
  · constructor
    · simp [addLeg, hc]
    · intro r hr
      simp [addLeg, hc] at hr
  · constructor
    · simp [addLeg, hc]
    · intro r hr
      rw [addLeg, if_neg hc] at hr
      obtain rfl : p ++ [c] = r := by simpa using hr
      refine ⟨rfl, le_of_not_lt hc, ?_⟩
      intro hp l hl
      rcases List.mem_append.1 hl with hl' | hl'
      · exact hp l hl'
      · rw [List.mem_singleton.1 hl']
        exact le_of_not_lt hc

/-- Witness for C2's amended theorem: the intake appends an accepted
candidate (here with qty 1) to the empty portfolio. -/
theorem C2_intake_qty_only_witness :
    [zeroStrikeLeg] = [] ++ [zeroStrikeLeg] ∧ 1 ≤ zeroStrikeLeg.qty :=
  ⟨(((C2_intake_qty_only [] zeroStrikeLeg).2 [zeroStrikeLeg]) rfl).1,
    (((C2_intake_qty_only [] zeroStrikeLeg).2 [zeroStrikeLeg]) rfl).2.1⟩

end OptionProfit
